import Mathlib

/-!
Shallow embedding of the feed-aggregator bot (src/main.py) and proofs about
its scheduling-and-policy engine.

Modelling conventions:
- Python strings are modelled as `List Char` (`Str`), so slicing is
  `List.take`, concatenation is `++`, and `len` is `List.length`.
- The sqlite ledger (table `sent_items`) is modelled as a `List SentItem`;
  the SQL queries of `count_sent_last_24h`, `count_sent_by_domain_last_24h`,
  `already_sent` and the `INSERT OR IGNORE` of `mark_sent` are translated to
  list operations. ISO-8601 timestamp strings compare chronologically, so
  timestamps are modelled as `Nat` hours with `≤`.
- External collaborators (feedparser via `fetch_feed_entries`, `urlparse`
  hostname extraction, the sha256 of `norm_hash`, the `clean_text` HTML/regex
  scrubber, the Telegram delivery of `safe_send_html`, the wall clock, and
  sqlite fault behaviour) are oracle fields of a `World` record; every run is
  relative to one fixed `World`, matching one polling cycle with a fixed
  clock.
- A sqlite call can raise; the oracle `World.dbFail` says which ledger
  operation raises.  A Python exception is modelled by the `raised` flag of a
  result record, carrying along the side effects (ledger writes, deliveries)
  that happened before the raise, exactly as an exception does not roll back
  committed state.
- Observable effects (feed fetches, delivered messages, sleeps, and the two
  logged stop events of `process_source`) are collected in a `trace`.
-/

/-- Python `str` as a sequence of characters. -/
abbrev Str := List Char

/-- One row of the `sent_items` table (`init_db` in src/main.py):
`url_hash` is the primary key. -/
structure SentItem where
  url_hash : Str
  url : Str
  domain : Str
  title : Str
  ts : Nat
deriving DecidableEq

/-- One parsed feed entry as produced by `fetch_feed_entries`. -/
structure Item where
  title : Str
  summary : Str
  url : Str
  published : Str
deriving DecidableEq

/-- A YAML value, for the document read by `load_sources_from_yaml`. -/
inductive Yaml where
  | null
  | str (s : Str)
  | list (xs : List Yaml)
  | dict (kvs : List (Str × Yaml))

/-- The three ways the sources file can present itself to
`load_sources_from_yaml`: absent, present but not parseable as YAML
(`yaml.safe_load` raises), or parsed into a YAML value. -/
inductive ConfigInput where
  | missing
  | parseError
  | parsed (v : Yaml)

/-- One loaded source dict `{url, tag}` as built by `load_sources_from_yaml`.
The `url` value is kept as YAML because the Python code stores whatever
truthy value the entry carried, without a type check. -/
structure SourceCfg where
  url : Yaml
  tag : Str

/-- The ledger operations that go to sqlite, used to address fault
injection (`World.dbFail`). -/
inductive DBOp where
  | countLast24
  | alreadySent (url : Str)
  | countDomain (domain : Str)
  | markSent (url : Str)

/-- Observable events of one cycle: a feed fetch (start of
`process_source`), a delivered Telegram message, an `asyncio.sleep`, and the
two logged cycle-stop situations of `process_source`. -/
inductive Ev where
  | fetched (url : Yaml)
  | posted (msg : Str)
  | sleep (secs : Nat)
  | stopNight
  | stopDaily

/-- The environment-derived configuration constants of src/main.py. -/
structure Config where
  DAILY_MAX_POSTS : Nat
  MAX_POSTS_PER_RUN : Nat
  DOMAIN_MAX_PER_24H : Nat
  NIGHT_START_HOUR : Nat
  NIGHT_END_HOUR : Nat
  MIN_DELAY_BETWEEN_POSTS : Nat

/-- The fixed surroundings of one polling cycle: configuration, clock, and
the external collaborators (hostname parser, sha256 digest, HTML scrubber,
Telegram delivery outcome, feedparser, sqlite fault oracle). -/
structure World where
  cfg : Config
  hour : Nat
  now : Nat
  hostname : Str → Option Str
  hash : Str → Str
  clean : Str → Str
  deliver : Str → Bool
  fetch : Yaml → Except Unit (List Item)
  dbFail : DBOp → Bool

/-- Python `str.lower`, character-wise. -/
def toLowerStr (s : Str) : Str := s.map Char.toLower

/-- Python `str.upper`, character-wise. -/
def toUpperStr (s : Str) : Str := s.map Char.toUpper

/-- Python `needle in hay` substring test. -/
def containsSub (n : Str) : Str → Bool
  | [] => n.isEmpty
  | c :: rest => n.isPrefixOf (c :: rest) || containsSub n rest

/-- `domain_from_url` (src/main.py line 67): `(urlparse(url).hostname or
"").lower()`, with a missing hostname giving the empty string. -/
def domain_from_url (w : World) (url : Str) : Str :=
  toLowerStr ((w.hostname url).getD [])

/-- `already_sent` (line 99): is a row with primary key `hash url`
present? -/
def already_sent (w : World) (db : List SentItem) (url : Str) : Bool :=
  db.any (fun r => decide (r.url_hash = w.hash url))

/-- `mark_sent` (line 106): `INSERT OR IGNORE` of a row keyed by the hash of
the url, with the derived domain and the current timestamp; a no-op when the
key is already present. -/
def mark_sent (w : World) (db : List SentItem) (url title : Str) :
    List SentItem :=
  let h := w.hash url
  if db.any (fun r => decide (r.url_hash = h)) then db
  else db ++ [⟨h, url, domain_from_url w url, title, w.now⟩]

/-- `count_sent_last_24h` (line 114): rows with `ts >= now - 24h`. -/
def count_sent_last_24h (db : List SentItem) (now : Nat) : Nat :=
  (db.filter (fun r => decide (now - 24 ≤ r.ts))).length

/-- `count_sent_by_domain_last_24h` (line 121): returns 0 for an empty
domain without touching the store, else counts recent rows of that
domain. -/
def count_sent_by_domain_last_24h (db : List SentItem) (domain : Str)
    (now : Nat) : Nat :=
  if domain = [] then 0
  else (db.filter
    (fun r => decide (r.domain = domain) && decide (now - 24 ≤ r.ts))).length

/-- `in_night_mode` (line 208): hour window test, wraparound branch when the
start hour is not strictly below the end hour. -/
def in_night_mode (start endH h : Nat) : Bool :=
  if start < endH then decide (start ≤ h) && decide (h < endH)
  else decide (start ≤ h) || decide (h < endH)

/-- `escape_html_text` (line 59): the single-character replace. -/
def replaceChar (c : Char) (r : Str) (s : Str) : Str :=
  s.flatMap (fun x => if x = c then r else [x])

/-- `escape_html_text` (line 59): escape `&`, then `<`, then `>`. -/
def escape_html_text (s : Str) : Str :=
  if s = [] then []
  else
    let s1 := replaceChar '&' ("&amp;".toList) s
    let s2 := replaceChar '<' ("&lt;".toList) s1
    replaceChar '>' ("&gt;".toList) s2

/-- Lines 268-269 of `process_source`: a summary longer than 300 characters
becomes its first 297 characters followed by `...`. -/
def truncate_summary (s : Str) : Str :=
  if 300 < s.length then s.take 297 ++ ['.', '.', '.'] else s

/-- Lines 265-266 of `process_source`: drop the summary when it is a
case-insensitive substring of the title. -/
def suppress_summary (title summary : Str) : Str :=
  if !summary.isEmpty && containsSub (toLowerStr summary) (toLowerStr title)
  then [] else summary

/-- Line 262 of `process_source`: `title = clean_text(...) or url`. -/
def sent_title (w : World) (e : Item) : Str :=
  if w.clean e.title = [] then e.url else w.clean e.title

/-- Lines 262-280 of `process_source`: build the HTML message for one
admitted item (title fallback to url, summary suppression, truncation,
tag fallback to `IT`, HTML escaping, assembly). -/
def build_msg (w : World) (tag : Str) (e : Item) : Str :=
  let title := sent_title w e
  let summary := truncate_summary (suppress_summary title (w.clean e.summary))
  let tagv := if tag = [] then "IT".toList else tag
  let title_html := escape_html_text title
  let summary_html := escape_html_text summary
  let tag_html := escape_html_text tagv
  let msg := "<b>[".toList ++ tag_html ++ "] ".toList ++ title_html
    ++ "</b>".toList
  let msg := if summary_html = [] then msg
    else msg ++ "\n\n".toList ++ summary_html
  msg ++ "\n\n<a href=\"".toList ++ escape_html_text e.url
    ++ "\">source</a>".toList

/-- Outcome of `process_source`: items sent, resulting ledger, observable
events, and whether an exception escaped (carrying the side effects already
performed). -/
structure SrcStep where
  sent : Nat
  db : List SentItem
  trace : List Ev
  raised : Bool

/-- The per-entry loop of `process_source` (lines 228-292).  Each candidate
goes through, in order: run-budget break, missing-url skip, night-mode
break, daily-cap recomputation and break, effective-allowed break,
duplicate skip, per-domain-cap skip, message build, delivery, and on
success `mark_sent` plus budget decrement plus inter-post sleep; on
delivery failure a 5-second cooldown and continue.  A raising sqlite call
ends the loop with `raised`. -/
def process_entries (w : World) (tag : Str) :
    List Item → Nat → List SentItem → SrcStep
  | [], _, db => ⟨0, db, [], false⟩
  | e :: rest, posts_left, db =>
    if posts_left = 0 then ⟨0, db, [], false⟩
    else if e.url = [] then process_entries w tag rest posts_left db
    else if in_night_mode w.cfg.NIGHT_START_HOUR w.cfg.NIGHT_END_HOUR w.hour
    then ⟨0, db, [Ev.stopNight], false⟩
    else if w.dbFail DBOp.countLast24 then ⟨0, db, [], true⟩
    else if w.cfg.DAILY_MAX_POSTS - count_sent_last_24h db w.now = 0 then
      ⟨0, db, [Ev.stopDaily], false⟩
    else if min posts_left
      (min (w.cfg.DAILY_MAX_POSTS - count_sent_last_24h db w.now)
        w.cfg.MAX_POSTS_PER_RUN) = 0
    then ⟨0, db, [], false⟩
    else if w.dbFail (DBOp.alreadySent e.url) then ⟨0, db, [], true⟩
    else if already_sent w db e.url then
      process_entries w tag rest posts_left db
    else if w.dbFail (DBOp.countDomain (domain_from_url w e.url)) then
      ⟨0, db, [], true⟩
    else if w.cfg.DOMAIN_MAX_PER_24H ≤
      count_sent_by_domain_last_24h db (domain_from_url w e.url) w.now
    then process_entries w tag rest posts_left db
    else if w.deliver (build_msg w tag e) then
      if w.dbFail (DBOp.markSent e.url) then
        ⟨0, db, [Ev.posted (build_msg w tag e)], true⟩
      else
        ⟨(process_entries w tag rest (posts_left - 1)
            (mark_sent w db e.url (sent_title w e))).sent + 1,
         (process_entries w tag rest (posts_left - 1)
            (mark_sent w db e.url (sent_title w e))).db,
         Ev.posted (build_msg w tag e)
           :: Ev.sleep w.cfg.MIN_DELAY_BETWEEN_POSTS
           :: (process_entries w tag rest (posts_left - 1)
                (mark_sent w db e.url (sent_title w e))).trace,
         (process_entries w tag rest (posts_left - 1)
            (mark_sent w db e.url (sent_title w e))).raised⟩
    else
      ⟨(process_entries w tag rest posts_left db).sent,
       (process_entries w tag rest posts_left db).db,
       Ev.sleep 5 :: (process_entries w tag rest posts_left db).trace,
       (process_entries w tag rest posts_left db).raised⟩

/-- `process_source` (line 220): fetch the feed (a fetch failure is caught
and yields 0 sent), then run the per-entry loop. -/
def process_source (w : World) (src : SourceCfg) (posts_left : Nat)
    (db : List SentItem) : SrcStep :=
  match w.fetch src.url with
  | Except.error _ => ⟨0, db, [Ev.fetched src.url], false⟩
  | Except.ok entries =>
    ⟨(process_entries w src.tag entries posts_left db).sent,
     (process_entries w src.tag entries posts_left db).db,
     Ev.fetched src.url
       :: (process_entries w src.tag entries posts_left db).trace,
     (process_entries w src.tag entries posts_left db).raised⟩

/-- Result of the source loop of `main_job`. -/
structure RunOut where
  db : List SentItem
  trace : List Ev

/-- The source loop of `main_job` (lines 313-320): stop when the run budget
is exhausted; each source runs inside `try/except`, so when
`process_source` raises, the error is logged, the budget is NOT decremented
(the assignment to `sent` never happened), and the loop continues with the
next source. -/
def run_sources (w : World) :
    List SourceCfg → Nat → List SentItem → RunOut
  | [], _, db => ⟨db, []⟩
  | s :: rest, posts_remaining, db =>
    if posts_remaining = 0 then ⟨db, []⟩
    else if (process_source w s posts_remaining db).raised then
      ⟨(run_sources w rest posts_remaining
          (process_source w s posts_remaining db).db).db,
       (process_source w s posts_remaining db).trace ++
         (run_sources w rest posts_remaining
           (process_source w s posts_remaining db).db).trace⟩
    else
      ⟨(run_sources w rest
          (posts_remaining - (process_source w s posts_remaining db).sent)
          (process_source w s posts_remaining db).db).db,
       (process_source w s posts_remaining db).trace ++
         (run_sources w rest
           (posts_remaining - (process_source w s posts_remaining db).sent)
           (process_source w s posts_remaining db).db).trace⟩

/-- Python truthiness of a YAML value. -/
def yamlTruthy : Yaml → Bool
  | Yaml.null => false
  | Yaml.str s => !s.isEmpty
  | Yaml.list xs => !xs.isEmpty
  | Yaml.dict kvs => !kvs.isEmpty

/-- Python `dict.get` with default `None`. -/
def yamlGet (kvs : List (Str × Yaml)) (k : Str) : Yaml :=
  match kvs.find? (fun kv => kv.1 == k) with
  | some kv => kv.2
  | none => Yaml.null

/-- A Python `a or b or ... or ""` chain: first truthy value, else `""`. -/
def firstTruthy : List Yaml → Yaml
  | [] => Yaml.str []
  | v :: vs => if yamlTruthy v then v else firstTruthy vs

/-- One iteration of the entry loop of `load_sources_from_yaml` (lines
139-144): `s.get` on a non-dict raises; a falsy url skips the entry; the
tag chain `category or tag or name or ""` feeds `.upper()`, which raises on
a truthy non-string. -/
def load_entry : Yaml → Except Unit (Option SourceCfg)
  | Yaml.dict kvs =>
    let url := yamlGet kvs ("url".toList)
    if !yamlTruthy url then Except.ok none
    else
      match firstTruthy [yamlGet kvs ("category".toList),
          yamlGet kvs ("tag".toList), yamlGet kvs ("name".toList)] with
      | Yaml.str t => Except.ok (some ⟨url, toUpperStr t⟩)
      | _ => Except.error ()
  | _ => Except.error ()

/-- The entry loop of `load_sources_from_yaml`: first raising entry wins. -/
def load_entries : List Yaml → Except Unit (List SourceCfg)
  | [] => Except.ok []
  | y :: ys =>
    match load_entry y with
    | Except.error e => Except.error e
    | Except.ok none => load_entries ys
    | Except.ok (some s) =>
      match load_entries ys with
      | Except.error e => Except.error e
      | Except.ok l => Except.ok (s :: l)

/-- `load_sources_from_yaml` (line 131): a missing file yields `[]` (with a
warning); an unparseable file raises out of `yaml.safe_load`; a falsy
document becomes `{}`; `.get` on a non-dict document raises; a falsy
`sources` value becomes `[]`; iterating a truthy non-list `sources` value
reaches `.get` on a non-dict element and raises. -/
def load_sources_from_yaml : ConfigInput → Except Unit (List SourceCfg)
  | ConfigInput.missing => Except.ok []
  | ConfigInput.parseError => Except.error ()
  | ConfigInput.parsed v =>
    let data := if yamlTruthy v then v else Yaml.dict []
    match data with
    | Yaml.dict kvs =>
      let srcsVal := yamlGet kvs ("sources".toList)
      let srcs := if yamlTruthy srcsVal then srcsVal else Yaml.list []
      match srcs with
      | Yaml.list xs => load_entries xs
      | _ => Except.error ()
    | _ => Except.error ()

/-- Result of one whole cycle (`main_job`): resulting ledger, events, and
whether an exception escaped `main_job` itself. -/
structure JobOut where
  db : List SentItem
  trace : List Ev
  raised : Bool

/-- `main_job` (line 294): load sources (a load exception escapes), return
on an empty list, return under night mode, compute the initial daily
remainder (a raising count escapes), return when it is zero, then run the
source loop with budget `min MAX_POSTS_PER_RUN remaining`. -/
def main_job (w : World) (input : ConfigInput) (db : List SentItem) :
    JobOut :=
  match load_sources_from_yaml input with
  | Except.error _ => ⟨db, [], true⟩
  | Except.ok sources =>
    if sources.isEmpty then ⟨db, [], false⟩
    else if in_night_mode w.cfg.NIGHT_START_HOUR w.cfg.NIGHT_END_HOUR w.hour
    then ⟨db, [], false⟩
    else if w.dbFail DBOp.countLast24 then ⟨db, [], true⟩
    else if w.cfg.DAILY_MAX_POSTS - count_sent_last_24h db w.now = 0 then
      ⟨db, [], false⟩
    else
      ⟨(run_sources w sources
          (min w.cfg.MAX_POSTS_PER_RUN
            (w.cfg.DAILY_MAX_POSTS - count_sent_last_24h db w.now)) db).db,
       (run_sources w sources
          (min w.cfg.MAX_POSTS_PER_RUN
            (w.cfg.DAILY_MAX_POSTS - count_sent_last_24h db w.now)) db).trace,
       false⟩

/-- The delivered messages of a trace. -/
def postsOf (t : List Ev) : List Str :=
  t.filterMap (fun ev => match ev with | Ev.posted m => some m | _ => none)

/-- Claim C2: with configured night hours start < end the night-mode
predicate holds exactly for start ≤ h < end, with start > end (wraparound)
exactly for h ≥ start or h < end; in particular for 0..7 the hours 0 and 6
are in blackout and 7 and 23 are not, and for 22..6 the hours 23 and 3 are
in blackout and 7 and 21 are not. -/
theorem night_mode_window_spec :
    (∀ s e h : Nat,
      (s < e → (in_night_mode s e h = true ↔ (s ≤ h ∧ h < e))) ∧
      (e < s → (in_night_mode s e h = true ↔ (s ≤ h ∨ h < e)))) ∧
    (in_night_mode 0 7 0 = true ∧ in_night_mode 0 7 6 = true ∧
      in_night_mode 0 7 7 = false ∧ in_night_mode 0 7 23 = false ∧
      in_night_mode 22 6 23 = true ∧ in_night_mode 22 6 3 = true ∧
      in_night_mode 22 6 7 = false ∧ in_night_mode 22 6 21 = false) := by
  refine ⟨fun s e h => ⟨fun hlt => ?_, fun hgt => ?_⟩, by decide⟩
  · rw [in_night_mode, if_pos hlt]
    simp
  · rw [in_night_mode, if_neg (by omega)]
    simp

/-- Witness for C2: the two halves of the window characterisation applied
at concrete hours. -/
theorem night_mode_window_spec_inst :
    (in_night_mode 0 7 6 = true ↔ (0 ≤ 6 ∧ 6 < 7)) ∧
    (in_night_mode 22 6 3 = true ↔ (22 ≤ 3 ∨ 3 < 6)) :=
  ⟨(night_mode_window_spec.1 0 7 6).1 (by decide),
   (night_mode_window_spec.1 22 6 3).2 (by decide)⟩

/-- Claim C9: when the configured night start hour equals the end hour the
wraparound branch makes the predicate true at every hour, a permanent
blackout. -/
theorem night_mode_equal_hours_always (s h : Nat) :
    in_night_mode s s h = true := by
  rw [in_night_mode, if_neg (by omega)]
  simp
  omega

/-- Claim C8: a summary longer than 300 characters is rendered as its first
297 characters plus a three-character ellipsis, 300 characters in all; a
summary of at most 300 characters is left unchanged. -/
theorem summary_truncation_spec (s : Str) :
    (300 < s.length →
      truncate_summary s = s.take 297 ++ ['.', '.', '.'] ∧
      (truncate_summary s).length = 300) ∧
    (s.length ≤ 300 → truncate_summary s = s) := by
  constructor
  · intro h
    rw [truncate_summary, if_pos h]
    refine ⟨rfl, ?_⟩
    simp [List.length_take]
    omega
  · intro h
    rw [truncate_summary, if_neg (by omega)]

/-- Witness for C8: the truncation behaviour at a concrete 310-character
summary. -/
theorem summary_truncation_spec_inst :
    truncate_summary (List.replicate 310 'a') =
      (List.replicate 310 'a').take 297 ++ ['.', '.', '.'] ∧
    (truncate_summary (List.replicate 310 'a')).length = 300 :=
  (summary_truncation_spec (List.replicate 310 'a')).1
    (by rw [List.length_replicate]; omega)

/-- Claim C5: inserting a url into the ledger is idempotent (a repeated
insert is a no-op, never an error), and starting from a ledger respecting
the at-most-one-row-per-key invariant, after recording there is exactly one
row keyed by the identity hash of the url. -/
theorem mark_sent_idempotent (w : World) (db : List SentItem) (u t t2 : Str)
    (hinv : (db.filter (fun r => decide (r.url_hash = w.hash u))).length ≤ 1) :
    mark_sent w (mark_sent w db u t) u t2 = mark_sent w db u t ∧
    ((mark_sent w db u t).filter
      (fun r => decide (r.url_hash = w.hash u))).length = 1 := by
  cases hany : db.any (fun r => decide (r.url_hash = w.hash u)) with
  | true =>
    have h1 : mark_sent w db u t = db := by
      rw [mark_sent]
      simp only [hany, if_true]
    rw [h1]
    refine ⟨?_, ?_⟩
    · rw [mark_sent]
      simp only [hany, if_true]
    obtain ⟨r, hr, hp⟩ := List.any_eq_true.mp hany
    have hmem : r ∈ db.filter (fun r => decide (r.url_hash = w.hash u)) :=
      List.mem_filter.mpr ⟨hr, hp⟩
    have hpos := List.length_pos.mpr (List.ne_nil_of_mem hmem)
    omega
  | false =>
    have h1 : mark_sent w db u t =
        db ++ [⟨w.hash u, u, domain_from_url w u, t, w.now⟩] := by
      rw [mark_sent]
      simp only [hany, if_false, Bool.false_eq_true]
    have hnew : (mark_sent w db u t).any
        (fun r => decide (r.url_hash = w.hash u)) = true := by
      rw [h1, List.any_append]
      simp
    constructor
    · rw [mark_sent]
      simp only [hnew, if_true]
    · rw [h1, List.filter_append]
      have hall : ∀ x ∈ db, ¬ x.url_hash = w.hash u := by simpa using hany
      have hnil : db.filter (fun r => decide (r.url_hash = w.hash u)) = [] := by
        rw [List.filter_eq_nil_iff]
        intro a ha
        simpa using hall a ha
      rw [hnil]
      simp

/-- A concrete quiet world: default-like configuration, daytime hour 12,
no hostname parse, identity digest and scrubber, successful delivery,
empty feeds, and a faultless store. -/
def W0 : World :=
  ⟨⟨30, 3, 2, 0, 7, 2⟩, 12, 100, fun _ => none, fun s => s, fun s => s,
    fun _ => true, fun _ => Except.ok [], fun _ => false⟩

/-- Witness for C5: recording a concrete url twice in an empty ledger. -/
theorem mark_sent_idempotent_inst :
    mark_sent W0 (mark_sent W0 [] ("u".toList) ("t".toList)) ("u".toList)
      ("t2".toList) = mark_sent W0 [] ("u".toList) ("t".toList) ∧
    ((mark_sent W0 [] ("u".toList) ("t".toList)).filter
      (fun r => decide (r.url_hash = W0.hash ("u".toList)))).length = 1 :=
  mark_sent_idempotent W0 [] ("u".toList) ("t".toList) ("t2".toList)
    (by decide)

/-- Claim C10: a url with no parseable hostname gets the empty domain, its
per-domain count is 0 for every ledger (the store is not consulted), so
with a positive per-domain cap the domain-cap skip test of
`process_source` never fires for it. -/
theorem no_hostname_never_domain_capped (w : World) (db : List SentItem)
    (url : Str) (hhost : w.hostname url = none)
    (hcap : 0 < w.cfg.DOMAIN_MAX_PER_24H) :
    domain_from_url w url = [] ∧
    count_sent_by_domain_last_24h db (domain_from_url w url) w.now = 0 ∧
    ¬ (w.cfg.DOMAIN_MAX_PER_24H ≤
        count_sent_by_domain_last_24h db (domain_from_url w url) w.now) := by
  have hd : domain_from_url w url = [] := by
    rw [domain_from_url, hhost]
    rfl
  rw [hd]
  have hz : count_sent_by_domain_last_24h db [] w.now = 0 := rfl
  rw [hz]
  exact ⟨rfl, rfl, by omega⟩

/-- Witness for C10: a hostname-less url against a ledger that does contain
an empty-domain row, with cap 2. -/
theorem no_hostname_never_domain_capped_inst :
    domain_from_url W0 ("u".toList) = [] ∧
    count_sent_by_domain_last_24h
      [⟨"h".toList, "x".toList, [], "t".toList, 100⟩]
      (domain_from_url W0 ("u".toList)) W0.now = 0 ∧
    ¬ (W0.cfg.DOMAIN_MAX_PER_24H ≤
        count_sent_by_domain_last_24h
          [⟨"h".toList, "x".toList, [], "t".toList, 100⟩]
          (domain_from_url W0 ("u".toList)) W0.now) :=
  no_hostname_never_domain_capped W0
    [⟨"h".toList, "x".toList, [], "t".toList, 100⟩] ("u".toList) rfl
    (by decide)

/-- Claim C4: when the ledger already holds at least the daily cap of rows
in the last 24 hours at the start of a cycle, `main_job` delivers nothing
and leaves the ledger unchanged, whatever the sources are. -/
theorem daily_cap_blocks_cycle (w : World) (input : ConfigInput)
    (db : List SentItem)
    (hcap : w.cfg.DAILY_MAX_POSTS ≤ count_sent_last_24h db w.now) :
    (main_job w input db).db = db ∧
    postsOf (main_job w input db).trace = [] := by
  have hrem : w.cfg.DAILY_MAX_POSTS - count_sent_last_24h db w.now = 0 :=
    Nat.sub_eq_zero_of_le hcap
  unfold main_job
  cases load_sources_from_yaml input with
  | error e => exact ⟨rfl, rfl⟩
  | ok sources =>
    by_cases hs : sources.isEmpty
    · simp [hs, postsOf]
    · by_cases hn : in_night_mode w.cfg.NIGHT_START_HOUR
          w.cfg.NIGHT_END_HOUR w.hour
      · simp [hs, hn, postsOf]
      · by_cases hf : w.dbFail DBOp.countLast24
        · simp [hs, hn, hf, postsOf]
        · simp [hs, hn, hf, hrem, postsOf]

/-- The ledger used by the C4 witness: one row stamped now. -/
def dbCap : List SentItem := [⟨"h".toList, "x".toList, [], "t".toList, 100⟩]

/-- The sources document used by the C4 witness: one wellformed source. -/
def inCap : ConfigInput :=
  ConfigInput.parsed (Yaml.dict [("sources".toList,
    Yaml.list [Yaml.dict [("url".toList, Yaml.str ("s1".toList))]])])

/-- A world with daily cap 1 for the C4 witness. -/
def Wcap : World :=
  ⟨⟨1, 3, 2, 0, 7, 2⟩, 12, 100, fun _ => none, fun s => s, fun s => s,
    fun _ => true, fun _ => Except.ok [], fun _ => false⟩

/-- Witness for C4: cap 1, one recent row, one configured source: the cycle
delivers nothing and the ledger stays as it is. -/
theorem daily_cap_blocks_cycle_inst :
    (main_job Wcap inCap dbCap).db = dbCap ∧
    postsOf (main_job Wcap inCap dbCap).trace = [] :=
  daily_cap_blocks_cycle Wcap inCap dbCap (by decide)

/-- Claim C6: when an admitted candidate's delivery fails, the ledger is
left unchanged and the run budget is not decremented: processing of the
remaining candidates continues from the same state, after a 5-second
cooldown.  The hypotheses say that the candidate reached delivery: the
budget is positive, it has a url, no stop fired, the store calls
succeeded, it is not a duplicate, its domain is under the cap, and the
delivery returned failure. -/
theorem delivery_failure_frame (w : World) (tag : Str) (e : Item)
    (rest : List Item) (pl : Nat) (db : List SentItem)
    (h0 : pl ≠ 0)
    (h1 : e.url ≠ [])
    (h2 : in_night_mode w.cfg.NIGHT_START_HOUR w.cfg.NIGHT_END_HOUR
      w.hour = false)
    (h3 : w.dbFail DBOp.countLast24 = false)
    (h4 : w.cfg.DAILY_MAX_POSTS - count_sent_last_24h db w.now ≠ 0)
    (h5 : min pl (min (w.cfg.DAILY_MAX_POSTS - count_sent_last_24h db w.now)
      w.cfg.MAX_POSTS_PER_RUN) ≠ 0)
    (h6 : w.dbFail (DBOp.alreadySent e.url) = false)
    (h7 : already_sent w db e.url = false)
    (h8 : w.dbFail (DBOp.countDomain (domain_from_url w e.url)) = false)
    (h9 : count_sent_by_domain_last_24h db (domain_from_url w e.url) w.now <
      w.cfg.DOMAIN_MAX_PER_24H)
    (h10 : w.deliver (build_msg w tag e) = false) :
    process_entries w tag (e :: rest) pl db =
      ⟨(process_entries w tag rest pl db).sent,
       (process_entries w tag rest pl db).db,
       Ev.sleep 5 :: (process_entries w tag rest pl db).trace,
       (process_entries w tag rest pl db).raised⟩ := by
  rw [process_entries, if_neg h0, if_neg h1,
    if_neg (show ¬ in_night_mode w.cfg.NIGHT_START_HOUR
      w.cfg.NIGHT_END_HOUR w.hour = true by simp [h2]),
    if_neg (show ¬ w.dbFail DBOp.countLast24 = true by simp [h3]),
    if_neg h4, if_neg h5,
    if_neg (show ¬ w.dbFail (DBOp.alreadySent e.url) = true by simp [h6]),
    if_neg (show ¬ already_sent w db e.url = true by simp [h7]),
    if_neg (show ¬ w.dbFail (DBOp.countDomain (domain_from_url w e.url)) =
      true by simp [h8]),
    if_neg (Nat.not_le.mpr h9),
    if_neg (show ¬ w.deliver (build_msg w tag e) = true by simp [h10])]

/-- A world where every delivery fails: used to witness C6. -/
def Wfail : World :=
  ⟨⟨30, 3, 2, 0, 7, 2⟩, 12, 100, fun u => some u, fun s => s, fun s => s,
    fun _ => false, fun _ => Except.ok [], fun _ => false⟩

/-- The candidate item used by the C6 witness. -/
def itemA : Item := ⟨"a".toList, [], "a".toList, []⟩

/-- Witness for C6: a concrete admitted item whose delivery fails leaves
budget 3 and the empty ledger untouched, with a 5-second cooldown. -/
theorem delivery_failure_frame_inst :
    process_entries Wfail [] [itemA] 3 [] =
      ⟨(process_entries Wfail [] ([] : List Item) 3 []).sent,
       (process_entries Wfail [] ([] : List Item) 3 []).db,
       Ev.sleep 5 :: (process_entries Wfail [] ([] : List Item) 3 []).trace,
       (process_entries Wfail [] ([] : List Item) 3 []).raised⟩ :=
  delivery_failure_frame Wfail [] itemA [] 3 [] (by decide) (by decide)
    (by decide) (by decide) (by decide) (by decide) (by decide) (by decide)
    (by decide) (by decide) (by decide)

/-- Claim C7 (corrected part): a missing sources file loads as the empty
source list, and the cycle is then skipped: no fetch, no delivery, no
ledger change, no exception.  An unparseable file instead raises: the
exception escapes `main_job` (second conjunct of the amended claim, proved
as `raised`). -/
theorem missing_config_skips_cycle (w : World) (db : List SentItem) :
    load_sources_from_yaml ConfigInput.missing = Except.ok [] ∧
    main_job w ConfigInput.missing db = ⟨db, [], false⟩ ∧
    main_job w ConfigInput.parseError db = ⟨db, [], true⟩ := by
  refine ⟨rfl, ?_, rfl⟩
  rw [main_job]
  rfl

/-- Counterexample for C7 as stated: loading is claimed never to raise and
to turn any malformed input into the empty list, but an unparseable file
makes `yaml.safe_load` raise, as does a parsed document that is not a
mapping (here: a bare string document). -/
theorem malformed_config_raises :
    load_sources_from_yaml ConfigInput.parseError = Except.error () ∧
    load_sources_from_yaml
      (ConfigInput.parsed (Yaml.str ("oops".toList))) = Except.error () ∧
    (main_job W0 ConfigInput.parseError []).raised = true :=
  ⟨rfl, rfl, rfl⟩

/-- Concatenation distributes over extraction of delivered messages. -/
theorem postsOf_append (a b : List Ev) :
    postsOf (a ++ b) = postsOf a ++ postsOf b := by
  simp [postsOf]

/-- Under a persistent stop condition (night mode active, or the recent
count already at the daily cap with a working store), the entry loop of
`process_source` posts nothing, writes nothing, sends 0 and does not
raise, whatever the entries and the budget. -/
theorem process_entries_stop (w : World) (tag : Str) (entries : List Item)
    (pl : Nat) (db : List SentItem)
    (hstop : in_night_mode w.cfg.NIGHT_START_HOUR w.cfg.NIGHT_END_HOUR
        w.hour = true ∨
      (w.dbFail DBOp.countLast24 = false ∧
        w.cfg.DAILY_MAX_POSTS ≤ count_sent_last_24h db w.now)) :
    (process_entries w tag entries pl db).sent = 0 ∧
    (process_entries w tag entries pl db).db = db ∧
    postsOf (process_entries w tag entries pl db).trace = [] ∧
    (process_entries w tag entries pl db).raised = false := by
  induction entries with
  | nil => exact ⟨rfl, rfl, rfl, rfl⟩
  | cons e rest ih =>
    rw [process_entries]
    by_cases h0 : pl = 0
    · rw [if_pos h0]
      exact ⟨rfl, rfl, rfl, rfl⟩
    · rw [if_neg h0]
      by_cases h1 : e.url = []
      · rw [if_pos h1]
        exact ih
      · rw [if_neg h1]
        by_cases hn : in_night_mode w.cfg.NIGHT_START_HOUR
            w.cfg.NIGHT_END_HOUR w.hour = true
        · rw [if_pos hn]
          exact ⟨rfl, rfl, rfl, rfl⟩
        · rw [if_neg hn]
          rcases hstop with hstop | ⟨hf, hge⟩
          · exact absurd hstop hn
          · rw [if_neg (show ¬ w.dbFail DBOp.countLast24 = true by
                simp [hf]),
              if_pos (Nat.sub_eq_zero_of_le hge)]
            exact ⟨rfl, rfl, rfl, rfl⟩

/-- `process_source` under a persistent stop condition: the feed is still
fetched, but nothing is posted, the ledger is unchanged, 0 is sent and no
exception escapes. -/
theorem process_source_stop (w : World) (s : SourceCfg) (pr : Nat)
    (db : List SentItem)
    (hstop : in_night_mode w.cfg.NIGHT_START_HOUR w.cfg.NIGHT_END_HOUR
        w.hour = true ∨
      (w.dbFail DBOp.countLast24 = false ∧
        w.cfg.DAILY_MAX_POSTS ≤ count_sent_last_24h db w.now)) :
    (process_source w s pr db).sent = 0 ∧
    (process_source w s pr db).db = db ∧
    postsOf (process_source w s pr db).trace = [] ∧
    (process_source w s pr db).raised = false ∧
    Ev.fetched s.url ∈ (process_source w s pr db).trace := by
  cases hf : w.fetch s.url with
  | error e =>
    have hps : process_source w s pr db = ⟨0, db, [Ev.fetched s.url], false⟩
      := by rw [process_source, hf]
    rw [hps]
    exact ⟨rfl, rfl, rfl, rfl, by simp⟩
  | ok entries =>
    obtain ⟨h1, h2, h3, h4⟩ := process_entries_stop w s.tag entries pr db
      hstop
    have hps : process_source w s pr db =
        ⟨(process_entries w s.tag entries pr db).sent,
         (process_entries w s.tag entries pr db).db,
         Ev.fetched s.url :: (process_entries w s.tag entries pr db).trace,
         (process_entries w s.tag entries pr db).raised⟩ := by
      rw [process_source, hf]
    rw [hps]
    refine ⟨h1, h2, ?_, h4, by simp⟩
    simp only [postsOf, List.filterMap_cons] at h3 ⊢
    exact h3

/-- Claim C1 (amended): a night-mode or daily-cap stop aborts only the
current source's remaining candidates; the orchestrator still proceeds to
the following sources and fetches every one of them, although under the
persisting stop condition nothing further is posted and the ledger never
changes. -/
theorem cycle_stop_current_source_only (w : World) (srcs : List SourceCfg)
    (pr : Nat) (db : List SentItem) (hpr : pr ≠ 0)
    (hstop : in_night_mode w.cfg.NIGHT_START_HOUR w.cfg.NIGHT_END_HOUR
        w.hour = true ∨
      (w.dbFail DBOp.countLast24 = false ∧
        w.cfg.DAILY_MAX_POSTS ≤ count_sent_last_24h db w.now)) :
    (run_sources w srcs pr db).db = db ∧
    postsOf (run_sources w srcs pr db).trace = [] ∧
    ∀ s ∈ srcs, Ev.fetched s.url ∈ (run_sources w srcs pr db).trace := by
  induction srcs with
  | nil =>
    refine ⟨rfl, rfl, ?_⟩
    intro s hs
    cases hs
  | cons s rest ih =>
    obtain ⟨hA, hB, hC, hD, hE⟩ := process_source_stop w s pr db hstop
    obtain ⟨ihdb, ihposts, ihmem⟩ := ih
    rw [run_sources, if_neg hpr,
      if_neg (show ¬ (process_source w s pr db).raised = true by
        simp [hD]),
      hA, Nat.sub_zero, hB]
    refine ⟨ihdb, ?_, ?_⟩
    · rw [postsOf_append, hC, ihposts]
      rfl
    · intro s2 hs2
      rcases List.mem_cons.mp hs2 with h | h
      · subst h
        exact List.mem_append_left _ hE
      · exact List.mem_append_right _ (ihmem s2 h)

/-- A world whose clock sits inside the default 0..7 blackout window. -/
def Wnight : World :=
  ⟨⟨30, 3, 2, 0, 7, 2⟩, 3, 100, fun _ => none, fun s => s, fun s => s,
    fun _ => true, fun _ => Except.ok [], fun _ => false⟩

/-- Witness for the amended C1: under active night mode and budget 3, a
two-source run leaves the ledger alone, posts nothing, and still fetches
both sources. -/
theorem cycle_stop_current_source_only_inst :
    (run_sources Wnight [⟨Yaml.str ("s1".toList), []⟩,
      ⟨Yaml.str ("s2".toList), []⟩] 3 []).db = [] ∧
    postsOf (run_sources Wnight [⟨Yaml.str ("s1".toList), []⟩,
      ⟨Yaml.str ("s2".toList), []⟩] 3 []).trace = [] ∧
    ∀ s ∈ [(⟨Yaml.str ("s1".toList), []⟩ : SourceCfg),
      ⟨Yaml.str ("s2".toList), []⟩],
      Ev.fetched s.url ∈ (run_sources Wnight [⟨Yaml.str ("s1".toList), []⟩,
        ⟨Yaml.str ("s2".toList), []⟩] 3 []).trace :=
  cycle_stop_current_source_only Wnight
    [⟨Yaml.str ("s1".toList), []⟩, ⟨Yaml.str ("s2".toList), []⟩] 3 []
    (by decide) (Or.inl (by decide))

/-- The world of the C1 counterexample: daily cap 2, run cap 3, three
configured feeds.  Source s1 has items a and b, but the store raises while
checking whether b was already sent; source s2 has items c and e; source
s3 is empty.  Every delivery succeeds. -/
def W1 : World :=
  ⟨⟨2, 3, 2, 0, 7, 2⟩, 12, 100, fun u => some u, fun s => s, fun s => s,
    fun _ => true,
    fun y =>
      match y with
      | Yaml.str s =>
        if s = "s1".toList then
          Except.ok [⟨"a".toList, [], "a".toList, []⟩,
            ⟨"b".toList, [], "b".toList, []⟩]
        else if s = "s2".toList then
          Except.ok [⟨"c".toList, [], "c".toList, []⟩,
            ⟨"e".toList, [], "e".toList, []⟩]
        else Except.ok []
      | _ => Except.ok [],
    fun op =>
      match op with
      | DBOp.alreadySent u => decide (u = "b".toList)
      | _ => false⟩

/-- The sources document of the C1 counterexample: three feeds. -/
def IN1 : ConfigInput :=
  ConfigInput.parsed (Yaml.dict [("sources".toList,
    Yaml.list [Yaml.dict [("url".toList, Yaml.str ("s1".toList))],
      Yaml.dict [("url".toList, Yaml.str ("s2".toList))],
      Yaml.dict [("url".toList, Yaml.str ("s3".toList))]])])

/-- Marks the events relevant to the C1 counterexample: the daily-cap stop
and the fetch of feed s3. -/
def evMark : Ev → Bool :=
  fun ev =>
    match ev with
    | Ev.stopDaily => true
    | Ev.fetched (Yaml.str u) => decide (u = "s3".toList)
    | _ => false

/-- Counterexample to C1 as stated: in the concrete cycle of `W1`/`IN1`
(items a and c get posted, reaching the daily cap of 2), the daily-cap
check stops source s2 mid-list, yet feed s3 is still fetched afterwards in
the same cycle — the stop does not abort the remaining sources. -/
theorem cycle_stop_not_cycle_wide :
    (main_job W1 IN1 []).trace.filter evMark =
      [Ev.stopDaily, Ev.fetched (Yaml.str ("s3".toList))] := by
  rfl

/-- Claim C3 (amended): a ledger error that escapes `process_source` is
caught by the per-source `try/except` of `main_job`: the loop logs it and
continues with the remaining sources, keeping the side effects performed so
far and NOT decrementing the run budget (the assignment to `sent` never
happened).  The cycle is not aborted. -/
theorem ledger_error_source_scope (w : World) (s : SourceCfg)
    (rest : List SourceCfg) (pr : Nat) (db : List SentItem)
    (hpr : pr ≠ 0)
    (hr : (process_source w s pr db).raised = true) :
    run_sources w (s :: rest) pr db =
      ⟨(run_sources w rest pr (process_source w s pr db).db).db,
       (process_source w s pr db).trace ++
         (run_sources w rest pr (process_source w s pr db).db).trace⟩ := by
  rw [run_sources, if_neg hpr, if_pos hr]

/-- The world of the C3 counterexample: daily cap 5, two feeds with one
item each; the store raises while checking whether item a of feed s1 was
already sent; deliveries succeed. -/
def W2 : World :=
  ⟨⟨5, 3, 2, 0, 7, 2⟩, 12, 100, fun u => some u, fun s => s, fun s => s,
    fun _ => true,
    fun y =>
      match y with
      | Yaml.str s =>
        if s = "s1".toList then
          Except.ok [⟨"a".toList, [], "a".toList, []⟩]
        else if s = "s2".toList then
          Except.ok [⟨"c".toList, [], "c".toList, []⟩]
        else Except.ok []
      | _ => Except.ok [],
    fun op =>
      match op with
      | DBOp.alreadySent u => decide (u = "a".toList)
      | _ => false⟩

/-- The sources document of the C3 counterexample: feeds s1 and s2. -/
def IN2 : ConfigInput :=
  ConfigInput.parsed (Yaml.dict [("sources".toList,
    Yaml.list [Yaml.dict [("url".toList, Yaml.str ("s1".toList))],
      Yaml.dict [("url".toList, Yaml.str ("s2".toList))]])])

/-- The message the bot builds for item c of feed s2. -/
def cMsg : Str := ("<b>[IT] c</b>\n\n<a href=\"c\">source</a>").toList

/-- Witness for the amended C3: in the concrete `W2` run the store raises
during source s1, and the orchestrator continues into source s2 with the
budget still at 3. -/
theorem ledger_error_source_scope_inst :
    run_sources W2 [⟨Yaml.str ("s1".toList), []⟩,
      ⟨Yaml.str ("s2".toList), []⟩] 3 [] =
      ⟨(run_sources W2 [⟨Yaml.str ("s2".toList), []⟩] 3
          (process_source W2 ⟨Yaml.str ("s1".toList), []⟩ 3 []).db).db,
       (process_source W2 ⟨Yaml.str ("s1".toList), []⟩ 3 []).trace ++
         (run_sources W2 [⟨Yaml.str ("s2".toList), []⟩] 3
           (process_source W2 ⟨Yaml.str ("s1".toList), []⟩ 3 []).db).trace⟩ :=
  ledger_error_source_scope W2 ⟨Yaml.str ("s1".toList), []⟩
    [⟨Yaml.str ("s2".toList), []⟩] 3 [] (by decide) (by rfl)

/-- Counterexample to C3 as stated: in the `W2` cycle a ledger operation
fails while source s1 is being processed (the `already_sent` check for
item a raises), yet the cycle does not abort: source s2 is fetched and its
item c is delivered afterwards. -/
theorem ledger_error_not_cycle_abort :
    W2.dbFail (DBOp.alreadySent ("a".toList)) = true ∧
    (main_job W2 IN2 []).trace =
      [Ev.fetched (Yaml.str ("s1".toList)),
       Ev.fetched (Yaml.str ("s2".toList)),
       Ev.posted cMsg, Ev.sleep 2] :=
  ⟨rfl, rfl⟩
